import Mathlib

/-!
Verification of the licaplot / licatools plotting-element construction
pipeline: the table transforms (`trim_table`, `resample_column`), the
table sources (`TableFromFile`, `TablesFromFiles`, `TableWrapper`,
`TablesWrapper`), the attribute-resolver builders and the `Director`
from `utils/mpl/plotter/{table,element}.py` of both packages.

Conventions of the shallow embedding:
* Machine floats of the source are modelled as exact rationals `ℚ`;
  every wavelength is taken to be in nanometres, so the unit arguments
  (`xunit`, `yunit`, `lunit`) of the source, which only scale values,
  are dropped.
* Python exceptions are modelled by `Except PyErr`; the distinct Python
  exception classes (`ValueError`, `IndexError`, `AssertionError`,
  `AttributeError`) are the constructors of `PyErr`.
* The external scipy Akima interpolator is an opaque collaborator: it
  is passed as a function argument `akima : List ℚ → List ℚ → ℚ → ℚ`
  (samples-x, samples-y, evaluation point).
* `read_csv` performs file I/O; the table a path denotes is therefore a
  field of the embedded table-source objects rather than re-read.
-/

namespace LicaSpec

/-- The Python exception kinds the embedded code can raise. -/
inductive PyErr where
  | valueError (msg : String)
  | indexError
  | assertionError (msg : String)
  | attributeError (msg : String)
  deriving DecidableEq, Repr

/-- Selection of Y columns as it flows through the source: either a single
one (`int` in Python) or a list of them (`list[int]`). -/
inductive YSel where
  | one (c : Int)
  | many (cs : List Int)
  deriving DecidableEq, Repr

/-- One-based to zero-based conversion performed at the TableSource
boundary (`ycol - 1 if isinstance(ycol, int) else [y - 1 for y in ycol]`). -/
def YSel.sub1 : YSel → YSel
  | .one c => .one (c - 1)
  | .many cs => .many (cs.map (fun y => y - 1))

/-- An astropy `Table`: ordered named columns of rational values plus the
`meta` entries the code reads (`title`, `label`). -/
structure PTable where
  cols : List (String × List ℚ)
  title : String
  label : String
  deriving DecidableEq, Repr

def PTable.ncols (t : PTable) : Nat := t.cols.length

/-- Python sequence indexing: non-negative indices must be below the
length, negative ones count from the end. -/
def pyIndex (n : Nat) (i : Int) : Option Nat :=
  if 0 ≤ i then (if i < (n : Int) then some i.toNat else none)
  else (if 0 ≤ (n : Int) + i then some ((n : Int) + i).toNat else none)

/-- `table.columns[i]` for an integer index: `IndexError` outside range. -/
def PTable.colAt (t : PTable) (i : Int) : Except PyErr (String × List ℚ) :=
  match pyIndex t.ncols i with
  | some j =>
    match t.cols.get? j with
    | some c => .ok c
    | none => .error .indexError
  | none => .error .indexError

/-- `table.columns[sel]`: astropy `TableColumns` raises `IndexError` when
given a `list` key, so a multi-column selection fails. -/
def PTable.colSel (t : PTable) : YSel → Except PyErr (String × List ℚ)
  | .one c => t.colAt c
  | .many _ => .error .indexError

/-- Boolean-mask row selection `vs[mask]` where the mask is `p` applied to
the x-column values `xs`: keep the entries of `vs` whose paired x
satisfies `p`. -/
def selectBy (p : ℚ → Bool) (xs : List ℚ) (vs : List α) : List α :=
  ((xs.zip vs).filter (fun q => p q.1)).map (fun q => q.2)

/-- `table[mask]`: apply the boolean mask derived from the x values to
every column of the table (astropy row slicing). -/
def PTable.rowSel (t : PTable) (xs : List ℚ) (p : ℚ → Bool) : PTable :=
  { t with cols := t.cols.map (fun c => (c.1, selectBy p xs c.2)) }

/-- Lower bound of the fixed instrument bench interval
(`lica.lab.BENCH.WAVE_START`, external collaborator constant, nm). -/
def WAVE_START : Int := 350

/-- Upper bound of the fixed instrument bench interval
(`lica.lab.BENCH.WAVE_END`, external collaborator constant, nm). -/
def WAVE_END : Int := 1050

namespace Licaplot

/-- `licaplot/utils/mpl/plotter/table.py::trim_table`: restrict a table to
an X interval.  `np.max`/`np.min` of an empty column raise `ValueError`;
the two astropy mask selections `table[x <= xmax]` and `table[x >= xmin]`
are applied one after the other, recomputing the x column in between. -/
def trim_table (t : PTable) (xcol : Int) (xlow xhigh : Option ℚ)
    (lica : Bool) : Except PyErr PTable := do
  let x ← t.colAt xcol
  let xmax ← match xhigh with
    | some v => Except.ok v
    | none =>
      match x.2.max? with
      | some m => Except.ok m
      | none => Except.error (.valueError "zero-size array to reduction operation")
  let xmin ← match xlow with
    | some v => Except.ok v
    | none =>
      match x.2.min? with
      | some m => Except.ok m
      | none => Except.error (.valueError "zero-size array to reduction operation")
  let xmax := if lica then min xmax (WAVE_END : ℚ) else xmax
  let xmin := if lica then max xmin (WAVE_START : ℚ) else xmin
  let t1 := t.rowSel x.2 (fun v => v ≤ xmax)
  let x1 ← t1.colAt xcol
  return t1.rowSel x1.2 (fun v => xmin ≤ v)

/-- `np.arange(start, stop, step)` over integer-valued endpoints: the
points `start + k*step` for `0 ≤ k < ⌈(stop - start)/step⌉`. -/
def arangeInt (start stop : Int) (step : Nat) : List Int :=
  (List.range (((stop - start).toNat + step - 1) / step)).map
    (fun (k : Nat) => start + (k : Int) * (step : Int))

/-- `licaplot/utils/mpl/plotter/table.py::resample_column`: build the
uniform grid and evaluate the (external, opaque) Akima interpolant of the
(X, Y) samples on it.  The bench bounds are used verbatim when `lica`;
otherwise `xmax = np.floor(np.max(x))` is computed before
`xmin = np.ceil(np.min(x))`, each failing on an empty column. -/
def resample_column (akima : List ℚ → List ℚ → ℚ → ℚ) (t : PTable)
    (resolution : Nat) (xcol : Int) (ycol : YSel) (lica : Bool) :
    Except PyErr (List ℚ × List ℚ) := do
  let x ← t.colAt xcol
  let y ← t.colSel ycol
  let bounds ←
    if lica then Except.ok (WAVE_START, WAVE_END)
    else do
      let mx ← match x.2.max? with
        | some m => Except.ok m
        | none => Except.error (.valueError "zero-size array to reduction operation")
      let mn ← match x.2.min? with
        | some m => Except.ok m
        | none => Except.error (.valueError "zero-size array to reduction operation")
      Except.ok (⌈mn⌉, ⌊mx⌋)
  let wavelength := (arangeInt bounds.1 (bounds.2 + resolution) resolution).map
    (fun (z : Int) => (z : ℚ))
  return (wavelength, wavelength.map (akima x.2 y.2))

/-- One clause of `TableBase._check_col_range`: zero-based `c` must lie in
`[0, ncols)`, otherwise a `ValueError` naming the one-based index and the
valid one-based range. -/
def checkOne (nc : Nat) (tag : String) (c : Int) : Except PyErr Unit :=
  if 0 ≤ c ∧ c < (nc : Int) then .ok ()
  else
    let c1 := c + 1
    .error (.valueError s!"{tag} column number ({c1}) should be 1 <= Y <= ({nc})")

/-- `TableBase._check_col_range`: each element of `cols` is either a
single index or a list of indices, all checked against the table width. -/
def check_col_range (t : PTable) (cols : List YSel) (tag : String) :
    Except PyErr Unit :=
  cols.forM (fun col =>
    match col with
    | .one c => checkOne t.ncols tag c
    | .many ys => ys.forM (checkOne t.ncols tag))

/-- `list.__setitem__`: `IndexError` outside range (no growth). -/
def pyListSet (l : List α) (i : Int) (v : α) : Except PyErr (List α) :=
  match pyIndex l.length i with
  | some j => .ok (l.set j v)
  | none => .error .indexError

/-- `astropy.table.Table(data=values, names=names)` over the slot list the
source prepares: the number of names must match the number of value slots
and every slot must have been filled (a `None` slot is not valid column
data). -/
def mkTableFromSlots (names : List String) (slots : List (Option (List ℚ)))
    (title label : String) : Except PyErr PTable :=
  if names.length ≠ slots.length then
    .error (.valueError "Inconsistent data column lengths")
  else
    match slots.mapM id with
    | some vals => .ok { cols := names.zip vals, title := title, label := label }
    | none => .error (.valueError "Data type not allowed to init Table")

/-- `TableBase._build_one_table` after `read_csv` (the parsed table is
passed in): just the trim step. -/
def build_one_table (t : PTable) (xc : Int) (xlow xhigh : Option ℚ)
    (lica : Bool) : Except PyErr PTable :=
  trim_table t xc xlow xhigh lica

/-- `TableBase._build_one_resampled_table` after `read_csv`: resample
first (the source comments that resampling must precede trimming), then
rebuild a table from the hardcoded two-slot `values = [None, None]` list,
copy the metadata and trim.  Unit reattachment is a no-op here (units are
not modelled). -/
def build_one_resampled_table (akima : List ℚ → List ℚ → ℚ → ℚ)
    (t : PTable) (resolution : Nat) (xc : Int) (yc : YSel)
    (xlow xhigh : Option ℚ) (lica : Bool) : Except PyErr PTable := do
  let (wavelength, resampled) ← resample_column akima t resolution xc yc lica
  let names := t.cols.map (fun c => c.1)
  let slots : List (Option (List ℚ)) := [none, none]
  let slots ← pyListSet slots xc wavelength
  let slots ← match yc with
    | .one c => pyListSet slots c resampled
    | .many _ => Except.error .indexError
  let newT ← mkTableFromSlots names slots t.title t.label
  trim_table newT xc xlow xhigh lica

/-- `TableFromFile`: single-path source.  `table` is what `read_csv`
yields for the path; `xcol`/`ycol` are the one-based user indices. -/
structure TableFromFile where
  table : PTable
  xcol : Int
  ycol : YSel
  xlow : Option ℚ
  xhigh : Option ℚ
  resolution : Option Nat
  lica_trim : Bool

/-- Zero-based X column of a `TableFromFile` (`self._xc = xcol - 1`). -/
def TableFromFile.xc (b : TableFromFile) : Int := b.xcol - 1

/-- Zero-based Y selection of a `TableFromFile` (`self._yc`). -/
def TableFromFile.yc (b : TableFromFile) : YSel := b.ycol.sub1

/-- `TableFromFile.build_tables`: build (trimmed or resampled) table, then
check the X and Y column ranges, then return the triple. -/
def TableFromFile.build_tables (akima : List ℚ → List ℚ → ℚ → ℚ)
    (b : TableFromFile) : Except PyErr (PTable × Int × YSel) := do
  let t ← match b.resolution with
    | none => build_one_table b.table b.xc b.xlow b.xhigh b.lica_trim
    | some r =>
      build_one_resampled_table akima b.table r b.xc b.yc b.xlow b.xhigh b.lica_trim
  check_col_range t [.one b.xc] "X"
  check_col_range t [b.yc] "Y"
  return (t, b.xc, b.yc)

/-- `TablesFromFiles`: multi-path source; `tables` lists what `read_csv`
yields for each path, in order. -/
structure TablesFromFiles where
  tables : List PTable
  xcol : Int
  ycol : YSel
  xlow : Option ℚ
  xhigh : Option ℚ
  resolution : Option Nat
  lica_trim : Bool

def TablesFromFiles.xc (b : TablesFromFiles) : Int := b.xcol - 1

def TablesFromFiles.yc (b : TablesFromFiles) : YSel := b.ycol.sub1

/-- `TablesFromFiles.build_tables`: per path, build the table (the
resampling branch asserts the Y selection is a single column), check the
X range and the Y range (spread over the list when it is one), and
accumulate; any failure aborts the whole construction. -/
def TablesFromFiles.build_tables (akima : List ℚ → List ℚ → ℚ → ℚ)
    (b : TablesFromFiles) : Except PyErr (List PTable × Int × YSel) := do
  let ts ← b.tables.mapM (fun tb => do
    let t ← match b.resolution with
      | none => build_one_table tb b.xc b.xlow b.xhigh b.lica_trim
      | some r =>
        match b.yc with
        | .one c =>
          build_one_resampled_table akima tb r b.xc (.one c) b.xlow b.xhigh b.lica_trim
        | .many _ => Except.error (.assertionError "Y Column only")
    check_col_range t [.one b.xc] "X"
    match b.yc with
    | .one c => check_col_range t [.one c] "Y"
    | .many cs => check_col_range t (cs.map .one) "Y"
    return t)
  return (ts, b.xc, b.yc)

/-- `TableWrapper`: in-memory single-table source.  The class derives from
`ITableBuilder`, not `TableBase`, so its `build_tables` call to
`self._check_col_range` finds no such attribute and every invocation
raises `AttributeError` before returning anything. -/
structure TableWrapper where
  table : PTable
  xcol : Int
  ycol : YSel

def TableWrapper.build_tables (_ : TableWrapper) :
    Except PyErr (PTable × Int × YSel) :=
  .error (.attributeError "TableWrapper object has no attribute check col range")

/-- `TablesWrapper`: in-memory multi-table source.  Its `build_tables`
performs no validation at all; it only shifts the user indices to
zero-based and returns. -/
structure TablesWrapper where
  tables : List PTable
  xcol : Int
  ycol : YSel

def TablesWrapper.build_tables (b : TablesWrapper) :
    List PTable × Int × YSel :=
  (b.tables, b.xcol - 1, b.ycol.sub1)

end Licaplot

/-- One part of the accumulated `Elements` list: the shared x column
reference, the y column references, the tables, the titles, or one of the
legend / marker / linestyle groups (cells are `none` placeholders or
strings). -/
inductive Elem where
  | x (c : Int)
  | yy (cs : List YSel)
  | tables (ts : List PTable)
  | titles (ts : List String)
  | grp (g : List (List (Option String)))
  deriving DecidableEq, Repr

/-- Fuel-indexed worker for `batched`; the fuel dominates the list length
so the recursion is structural (and hence kernel-reducible). -/
def batchedGo (n : Nat) : Nat → List α → List (List α)
  | _, [] => []
  | 0, _ :: _ => []
  | fuel + 1, x :: xs => (x :: xs.take (n - 1)) :: batchedGo n fuel (xs.drop (n - 1))

/-- `itertools.batched(seq, n)` for `n ≥ 1`: consecutive chunks of size
`n`, the last one possibly shorter. -/
def batched (n : Nat) (l : List α) : List (List α) := batchedGo n l.length l

/-- Python `list * int`: the list concatenated with itself `k` times. -/
def pyMul (l : List α) (k : Nat) : List α := (List.replicate k l).flatten

/-- `ElementsBase._grouped`: chunk a present flat sequence into groups of
`ncol`; a `None` sequence becomes `ntab` groups of `ncol` `None`s. -/
def grouped (ntab ncol : Nat) (s : Option (List (Option String))) :
    List (List (Option String)) :=
  match s with
  | some l => batched ncol l
  | none => List.replicate ntab (List.replicate ncol none)

/-- `ElementsBase.elements` property: return the accumulated parts and
reset the accumulator to the empty list (`self._reset()`). -/
def elements_read (es : List Elem) : List Elem × List Elem := (es, [])

namespace Licatools

/-- `licatools/.../element.py::SingleTablesColumnBuilder._check_legends`:
a supplied list must have length `ntab` or `1`; the failure message talks
about "labels". -/
def SingleTablesColumnBuilder.check_legends (ntab : Nat)
    (legends : Option (List String)) : Except PyErr Unit :=
  match legends with
  | none => .ok ()
  | some ls =>
    if ls.length = ntab ∨ ls.length = 1 then .ok ()
    else
      let n := ls.length
      .error (.valueError
        s!"number of labels ({n}) should either match number of tables ({ntab}) or be 1")

/-- The two-alternative cardinality message of
`SingleTablesColumnsBuilder` (same format string for legends, markers and
linestyles, here instantiated for legends). -/
def legends2AltMsg (nargs tot ncol : Nat) : String :=
  s!"number of legends ({nargs}) should match number of tables x Y-columns ({tot}) or the number of Y-columns ({ncol})"

/-- `licatools/.../element.py::SingleTablesColumnsBuilder._check_legends`:
a supplied list must have length `ncol` or `ntab * ncol`. -/
def SingleTablesColumnsBuilder.check_legends (ntab ncol : Nat)
    (legends : Option (List String)) : Except PyErr Unit :=
  match legends with
  | none => .ok ()
  | some ls =>
    if ls.length = ncol ∨ ls.length = ntab * ncol then .ok ()
    else .error (.valueError (legends2AltMsg ls.length (ncol * ntab) ncol))

/-- Default legends of `SingleTablesColumnsBuilder.build_legends_grp`:
`label + "-" + column-name[:trim] + "."` for every table and Y column. -/
def SingleTablesColumnsBuilder.default_legends (trimLen : Nat)
    (tables : List PTable) (ycols : List Int) :
    Except PyErr (List (Option String)) :=
  (tables.mapM (fun (t : PTable) => ycols.mapM (fun (y : Int) =>
    (t.colAt y).map (fun c =>
      some (t.label ++ "-" ++ c.1.take trimLen ++ "."))))).map List.flatten

/-- `licatools/.../element.py::SingleTablesColumnsBuilder.build_legends_grp`:
validate, then replicate a length-`ncol` list `ntab` times (otherwise use
it as supplied, or fall back to the defaults) and chunk into groups of
`ncol`. -/
def SingleTablesColumnsBuilder.build_legends_grp (ntab ncol trimLen : Nat)
    (tables : List PTable) (ycols : List Int)
    (legends : Option (List String)) :
    Except PyErr (List (List (Option String))) :=
  match SingleTablesColumnsBuilder.check_legends ntab ncol legends with
  | .error e => .error e
  | .ok _ =>
    match legends with
    | some ls =>
      let flat := (if ls.length = ncol then pyMul ls ntab else ls).map some
      .ok (batched ncol flat)
    | none =>
      match SingleTablesColumnsBuilder.default_legends trimLen tables ycols with
      | .error e => .error e
      | .ok flat => .ok (batched ncol flat)

/-- `licatools/.../element.py::MultiTablesColumnsBuilder._check_markers`:
a supplied list must have length exactly `ncol`. -/
def MultiTablesColumnsBuilder.check_markers (ncol : Nat)
    (markers : Option (List String)) : Except PyErr Unit :=
  match markers with
  | none => .ok ()
  | some ms =>
    if ms.length = ncol then .ok ()
    else
      let n := ms.length
      .error (.valueError
        s!"number of markers ({n}) should match number of y-columns ({ncol})")

/-- `licatools/.../element.py::MultiTablesColumnsBuilder.build_markers_grp`:
validate, default an absent list to the hardcoded `[None, None]`,
replicate `ntab` times and chunk into groups of `ncol`. -/
def MultiTablesColumnsBuilder.build_markers_grp (ntab ncol : Nat)
    (markers : Option (List String)) :
    Except PyErr (List (List (Option String))) :=
  match MultiTablesColumnsBuilder.check_markers ncol markers with
  | .error e => .error e
  | .ok _ =>
    let flat : List (Option String) :=
      match markers with
      | none => [none, none]
      | some ms => ms.map some
    .ok (batched ncol (pyMul flat ntab))

/-- The builder capability interface the licatools `Director` drives
(`IElementsBuilder`): the five build steps, each a state transformer that
may raise, plus the destructive `elements` property read. -/
structure IElementsBuilder (σ : Type) where
  build_tables : σ → Except PyErr σ
  build_titles : σ → Except PyErr σ
  build_legends_grp : σ → Except PyErr σ
  build_markers_grp : σ → Except PyErr σ
  build_linestyles_grp : σ → Except PyErr σ
  elements : σ → List Elem × σ

/-- `licatools/.../element.py::Director.build_elements`: the five build
steps in their fixed order, then the `elements` property read. -/
def Director.build_elements (b : IElementsBuilder σ) (s : σ) :
    Except PyErr (List Elem × σ) := do
  let s ← b.build_tables s
  let s ← b.build_titles s
  let s ← b.build_legends_grp s
  let s ← b.build_markers_grp s
  let s ← b.build_linestyles_grp s
  return b.elements s

/-- Mutable state of a `SingleTableColumnBuilder`: the `_elements`
accumulator and the `_table` attribute set by `build_tables`. -/
structure STCState where
  elements : List Elem
  table : Option PTable
  deriving DecidableEq, Repr

/-- Fresh builder state (`self._elements = list()`, no `_table` yet). -/
def STCState.init : STCState := { elements := [], table := none }

/-- `licatools/.../element.py::SingleTableColumnBuilder` as an
`IElementsBuilder` instance: `tb` is the outcome of the table builder's
`build_tables()`, the four optional attributes are the constructor
arguments.  `build_tables` extends the accumulator with
`[xcol, [ycol], tables]`; the later steps append one part each; reading
`elements` resets the accumulator. -/
def SingleTableColumnBuilder.mk (tb : Except PyErr (PTable × Int × YSel))
    (title label marker linestyle : Option String) :
    IElementsBuilder STCState where
  build_tables := fun s =>
    match tb with
    | .error e => .error e
    | .ok (t, xc, yc) =>
      .ok { s with
        elements := s.elements ++ [.x xc, .yy [yc], .tables [t]],
        table := some t }
  build_titles := fun s =>
    match title with
    | some ti => .ok { s with elements := s.elements ++ [.titles [ti]] }
    | none =>
      match s.table with
      | some t => .ok { s with elements := s.elements ++ [.titles [t.title]] }
      | none => .error (.attributeError "_table")
  build_legends_grp := fun s =>
    .ok { s with elements := s.elements ++ [.grp [[label]]] }
  build_markers_grp := fun s =>
    .ok { s with elements := s.elements ++ [.grp [[marker]]] }
  build_linestyles_grp := fun s =>
    .ok { s with elements := s.elements ++ [.grp [[linestyle]]] }
  elements := fun s =>
    let r := elements_read s.elements
    (r.1, { s with elements := r.2 })

end Licatools

namespace Licaplot

/-- The builder interface of `licaplot/.../element.py::IElementsBuilder`:
it has no linestyles step at all. -/
structure IElementsBuilder (σ : Type) where
  build_tables : σ → Except PyErr σ
  build_titles : σ → Except PyErr σ
  build_legends_grp : σ → Except PyErr σ
  build_markers_grp : σ → Except PyErr σ
  elements : σ → List Elem × σ

/-- `licaplot/.../element.py::Director.build_elements`: only four build
steps, then the `elements` property read. -/
def Director.build_elements (b : IElementsBuilder σ) (s : σ) :
    Except PyErr (List Elem × σ) := do
  let s ← b.build_tables s
  let s ← b.build_titles s
  let s ← b.build_legends_grp s
  let s ← b.build_markers_grp s
  return b.elements s

/-- `licaplot/.../element.py::SingleTablesColumnBuilder._check_legends`:
this revision accepts only a list of length exactly `ntab`. -/
def SingleTablesColumnBuilder.check_legends (ntab : Nat)
    (legends : Option (List String)) : Except PyErr Unit :=
  match legends with
  | none => .ok ()
  | some ls =>
    if ls.length = ntab then .ok ()
    else
      let n := ls.length
      .error (.valueError
        s!"number of labels ({n}) should match number of tables ({ntab})")

end Licaplot

/-- The order in which a Director invokes builder steps; used to observe
the call sequence. -/
inductive StepTag where
  | tables
  | titles
  | legends
  | markers
  | linestyles
  deriving DecidableEq, Repr

/-- A builder whose state is the list of steps invoked so far: each step
logs its tag, every step succeeds, `elements` returns nothing. -/
def logBuilder5 : Licatools.IElementsBuilder (List StepTag) where
  build_tables := fun s => .ok (s ++ [.tables])
  build_titles := fun s => .ok (s ++ [.titles])
  build_legends_grp := fun s => .ok (s ++ [.legends])
  build_markers_grp := fun s => .ok (s ++ [.markers])
  build_linestyles_grp := fun s => .ok (s ++ [.linestyles])
  elements := fun s => ([], s)

/-- The same observation builder for the licaplot interface. -/
def logBuilder4 : Licaplot.IElementsBuilder (List StepTag) where
  build_tables := fun s => .ok (s ++ [.tables])
  build_titles := fun s => .ok (s ++ [.titles])
  build_legends_grp := fun s => .ok (s ++ [.legends])
  build_markers_grp := fun s => .ok (s ++ [.markers])
  elements := fun s => ([], s)

/-- Whether an `Except` computation failed. -/
def isErr : Except ε α → Bool
  | .error _ => true
  | .ok _ => false

/-- The requested upper trim bound before clamping: `xhigh` when given,
otherwise the observed maximum of the x column. -/
def requestedHigh (xs : List ℚ) (xhigh : Option ℚ) : ℚ :=
  xhigh.getD (xs.max?.getD 0)

/-- The requested lower trim bound before clamping: `xlow` when given,
otherwise the observed minimum of the x column. -/
def requestedLow (xs : List ℚ) (xlow : Option ℚ) : ℚ :=
  xlow.getD (xs.min?.getD 0)

/-- The effective upper bound: intersected with the bench interval when
`lica` (never widened). -/
def clampedHigh (h : ℚ) (lica : Bool) : ℚ :=
  if lica then min h (WAVE_END : ℚ) else h

/-- The effective lower bound: intersected with the bench interval when
`lica` (never widened). -/
def clampedLow (l : ℚ) (lica : Bool) : ℚ :=
  if lica then max l (WAVE_START : ℚ) else l

/-- Membership of a value in the inclusive interval `[lo, hi]`. -/
def withinBounds (lo hi v : ℚ) : Bool :=
  decide (lo ≤ v) && decide (v ≤ hi)

/-- A stub for the external Akima interpolant, used in concrete runs
where the interpolated values themselves are irrelevant. -/
def akimaZero : List ℚ → List ℚ → ℚ → ℚ := fun _ _ _ => 0

/-- A concrete two-column measurement table. -/
def tblRGB : PTable :=
  { cols := [("Wavelength", [1, 2]), ("Current", [10, 20])],
    title := "Blue filter", label := "blue" }

/-- A concrete single-path source over `tblRGB`: x column 1, y column 2,
no bounds, no resampling. -/
def tffRGB : Licaplot.TableFromFile :=
  { table := tblRGB, xcol := 1, ycol := .one 2, xlow := none, xhigh := none,
    resolution := none, lica_trim := false }

/-- The licatools single-table single-column builder wired to `tffRGB`
with no overrides. -/
def stcBuilderRGB : Licatools.IElementsBuilder Licatools.STCState :=
  Licatools.SingleTableColumnBuilder.mk
    (Licaplot.TableFromFile.build_tables akimaZero tffRGB) none none none none

/-- A concrete four-column table (each column two rows). -/
def tbl4 : PTable :=
  { cols := [("A", [1, 2]), ("B", [1, 2]), ("C", [1, 2]), ("D", [1, 2])],
    title := "t4", label := "l4" }

/-- Single-path source requesting y column 8 of the four-column table,
with resampling requested. -/
def tffResampleBad : Licaplot.TableFromFile :=
  { table := tbl4, xcol := 1, ycol := .one 8, xlow := none, xhigh := none,
    resolution := some 1, lica_trim := false }

/-- Single-path source requesting y column 8 of the four-column table,
without resampling. -/
def tffRangeBad : Licaplot.TableFromFile :=
  { table := tbl4, xcol := 1, ycol := .one 8, xlow := none, xhigh := none,
    resolution := none, lica_trim := false }

/-- Table whose x samples are 0 and 5 (step 3 does not divide the span). -/
def tblSpan5 : PTable :=
  { cols := [("W", [0, 5]), ("Y", [7, 9])], title := "t", label := "l" }

/-- Table with x samples 1 and 4, for the resampling witness. -/
def tblSpan3 : PTable :=
  { cols := [("W", [1, 4]), ("Y", [2, 3])], title := "t", label := "l" }

/-- Three-row table for the trim witness. -/
def tblTrim3 : PTable :=
  { cols := [("W", [1, 3, 5]), ("C", [10, 30, 50])], title := "t", label := "l" }

/-- Multi-path source requesting resampling together with a list of Y
columns. -/
def tfsMultiY : Licaplot.TablesFromFiles :=
  { tables := [tblRGB], xcol := 1, ycol := .many [1, 2], xlow := none,
    xhigh := none, resolution := some 5, lica_trim := false }

/-- Single-path source requesting resampling together with a list of Y
columns. -/
def tffMultiY : Licaplot.TableFromFile :=
  { table := tblRGB, xcol := 1, ycol := .many [1, 2], xlow := none,
    xhigh := none, resolution := some 5, lica_trim := false }

/-- In-memory multi-table source whose x column request (5) is far outside
the two columns of its table. -/
def twBad : Licaplot.TablesWrapper :=
  { tables := [tblRGB], xcol := 5, ycol := .one 1 }

end LicaSpec

deriving instance DecidableEq for Except

namespace LicaSpec

theorem batchedGo_eq_of_le (n : Nat) : ∀ {f1 f2 : Nat} {l : List α},
    l.length ≤ f1 → l.length ≤ f2 → batchedGo n f1 l = batchedGo n f2 l := by
  intro f1
  induction f1 with
  | zero =>
    intro f2 l h1 _
    cases l with
    | nil => cases f2 <;> rfl
    | cons x xs => simp at h1
  | succ f ih =>
    intro f2 l h1 h2
    cases l with
    | nil => cases f2 <;> rfl
    | cons x xs =>
      cases f2 with
      | zero => simp at h2
      | succ f2' =>
        simp only [batchedGo]
        congr 1
        exact ih (by simp only [List.length_drop]; simp at h1; omega)
          (by simp only [List.length_drop]; simp at h2; omega)

theorem batched_nil (n : Nat) : batched n ([] : List α) = [] := rfl

theorem batched_cons (n : Nat) (x : α) (xs : List α) :
    batched n (x :: xs) = (x :: xs.take (n - 1)) :: batched n (xs.drop (n - 1)) := by
  unfold batched
  simp only [List.length_cons, batchedGo]
  congr 1
  exact batchedGo_eq_of_le n (by simp only [List.length_drop]; omega) le_rfl

theorem batched_append (n : Nat) (hn : 0 < n) (l rest : List α)
    (h : l.length = n) : batched n (l ++ rest) = l :: batched n rest := by
  cases l with
  | nil => simp at h; omega
  | cons x xs =>
    have hxs : xs.length = n - 1 := by simp at h; omega
    rw [List.cons_append, batched_cons]
    congr 2
    · rw [← hxs, List.take_left]
    · rw [← hxs, List.drop_left]

theorem pyMul_zero (l : List α) : pyMul l 0 = [] := rfl

theorem pyMul_succ (l : List α) (k : Nat) : pyMul l (k + 1) = l ++ pyMul l k := by
  simp [pyMul, List.replicate_succ]

theorem pyMul_map (f : α → β) (l : List α) (k : Nat) :
    (pyMul l k).map f = pyMul (l.map f) k := by
  induction k with
  | zero => rfl
  | succ k ih => simp [pyMul_succ, ih]

theorem pyMul_length (l : List α) (k : Nat) : (pyMul l k).length = k * l.length := by
  induction k with
  | zero => simp [pyMul_zero]
  | succ k ih => rw [pyMul_succ]; simp [ih, Nat.succ_mul]; omega

theorem batched_pyMul (n : Nat) (hn : 0 < n) (l : List α) (h : l.length = n)
    (k : Nat) : batched n (pyMul l k) = List.replicate k l := by
  induction k with
  | zero => simp [pyMul_zero, batched_nil]
  | succ k ih => rw [pyMul_succ, batched_append n hn l _ h, ih, List.replicate_succ]

theorem batched_chunks (n : Nat) (hn : 0 < n) (k : Nat) :
    ∀ l : List α, l.length = k * n →
    batched n l = (List.range k).map (fun i => (l.drop (i * n)).take n) := by
  induction k with
  | zero =>
    intro l hl
    simp only [Nat.zero_mul, List.length_eq_zero] at hl
    simp [hl, batched_nil]
  | succ k ih =>
    intro l hl
    have hlen : (l.take n).length = n := by
      rw [List.length_take, hl]
      exact Nat.min_eq_left (Nat.le_mul_of_pos_left n (Nat.succ_pos k))
    conv_lhs => rw [← List.take_append_drop n l]
    rw [batched_append n hn _ _ hlen,
      ih (l.drop n) (by simp only [List.length_drop, hl, Nat.succ_mul]; omega)]
    rw [List.range_succ_eq_map, List.map_cons, List.map_map]
    congr 1
    · simp
    · refine List.map_congr_left (fun i _ => ?_)
      simp only [Function.comp_apply, List.drop_drop]
      congr 2
      simp [Nat.succ_mul]
      omega

theorem selectBy_nil_left (p : ℚ → Bool) (vs : List α) :
    selectBy p [] vs = [] := rfl

theorem selectBy_nil_right (p : ℚ → Bool) (xs : List ℚ) :
    selectBy p xs ([] : List α) = [] := by
  cases xs <;> rfl

theorem selectBy_cons (p : ℚ → Bool) (x : ℚ) (xs : List ℚ) (v : α) (vs : List α) :
    selectBy p (x :: xs) (v :: vs) =
      if p x then v :: selectBy p xs vs else selectBy p xs vs := by
  simp only [selectBy, List.zip_cons_cons, List.filter_cons]
  split <;> simp

theorem selectBy_selectBy (p1 p2 : ℚ → Bool) (xs : List ℚ) (vs : List α) :
    selectBy p2 (selectBy p1 xs xs) (selectBy p1 xs vs) =
      selectBy (fun v => p1 v && p2 v) xs vs := by
  induction xs generalizing vs with
  | nil => simp [selectBy_nil_left]
  | cons x xs ih =>
    cases vs with
    | nil => simp [selectBy_nil_right]
    | cons v vs =>
      by_cases h1 : p1 x
      · rw [selectBy_cons, selectBy_cons, if_pos h1, if_pos h1, selectBy_cons]
        by_cases h2 : p2 x
        · rw [if_pos h2, selectBy_cons, if_pos (by simp [h1, h2]), ih]
        · rw [if_neg h2, selectBy_cons, if_neg (by simp [h1, h2]), ih]
      · rw [selectBy_cons, selectBy_cons, if_neg h1, if_neg h1, selectBy_cons,
          if_neg (by simp [h1]), ih]

theorem arangeInt_length (s e : Int) (st : Nat) :
    (Licaplot.arangeInt s e st).length = ((e - s).toNat + st - 1) / st := by
  unfold Licaplot.arangeInt
  rw [List.length_map, List.length_range]

theorem arangeInt_getElem? (s e : Int) (st : Nat) (k : Nat)
    (hk : k < ((e - s).toNat + st - 1) / st) :
    (Licaplot.arangeInt s e st)[k]? = some (s + (k : Int) * (st : Int)) := by
  unfold Licaplot.arangeInt
  rw [List.getElem?_map, List.getElem?_range hk]
  rfl

end LicaSpec

namespace LicaSpec

/-- C2: the Elements invariant requires every attribute group to have
shape `ntab × ncol`, in particular for the one-table-per-panel
multi-column builder with absent markers; but that builder's
`build_markers_grp` defaults the flat list to the hardcoded
`[None, None]`, so for `ntab = 1, ncol = 1` it produces an outer length
of 2 instead of `ntab = 1`. -/
theorem c2_multi_tables_columns_markers_shape_bug :
    Licatools.MultiTablesColumnsBuilder.build_markers_grp 1 1 none
      = .ok [[(none : Option String)], [none]]
    ∧ ([[(none : Option String)], [none]] : List (List (Option String))).length ≠ 1 :=
  ⟨rfl, by decide⟩

/-- C4: the multi-table/single-column builder accepts legend lists of
length `ntab` or `1`, but the licatools revision words its cardinality
message "number of labels ...", not "number of legends ..." as the claim
(and the repository's own test `test/element.py` line 408) states; and
the licaplot revision rejects even a length-1 list. -/
theorem c4_single_tables_column_legend_message :
    Licatools.SingleTablesColumnBuilder.check_legends 3 (some ["Azul", "Verde"])
      = .error (.valueError
        "number of labels (2) should either match number of tables (3) or be 1")
    ∧ "number of labels (2) should either match number of tables (3) or be 1"
      ≠ "number of legends (2) should either match number of tables (3) or be 1"
    ∧ Licaplot.SingleTablesColumnBuilder.check_legends 3 (some ["Verde"])
      = .error (.valueError "number of labels (1) should match number of tables (3)") :=
  ⟨by decide, by decide, by decide⟩

/-- C8 (amended): the licatools Director runs exactly the five build
steps tables → titles → legends → markers → linestyles, in that order,
and an end-to-end run of the single-table/single-column builder returns
the accumulated Elements in the field order
(x, yy, tables, titles, legends_grp, markers_grp, linestyles_grp). -/
theorem c8_director_fixed_sequence :
    Licatools.Director.build_elements logBuilder5 []
      = .ok ([], [StepTag.tables, .titles, .legends, .markers, .linestyles])
    ∧ Licatools.Director.build_elements stcBuilderRGB Licatools.STCState.init
      = .ok ([Elem.x 0, .yy [.one 1], .tables [tblRGB], .titles ["Blue filter"],
              .grp [[none]], .grp [[none]], .grp [[none]]],
             { elements := [], table := some tblRGB }) :=
  ⟨rfl, by decide⟩

/-- C8 counterexample: the licaplot Director executes only four build
steps — `build_linestyles_grp` is never invoked — so the claimed
five-step sequence is not what every Director runs. -/
theorem c8_licaplot_director_omits_linestyles :
    Licaplot.Director.build_elements logBuilder4 []
      = .ok ([], [StepTag.tables, .titles, .legends, .markers])
    ∧ [StepTag.tables, .titles, .legends, .markers]
      ≠ [StepTag.tables, .titles, .legends, .markers, .linestyles] :=
  ⟨rfl, by decide⟩

/-- C9: the in-memory multi-table source performs no column validation:
requesting x column 5 of a two-column table completes `build_tables`
and hands back the out-of-range zero-based index 4. -/
theorem c9_tables_wrapper_returns_unchecked :
    Licaplot.TablesWrapper.build_tables twBad = ([tblRGB], 4, .one 0)
    ∧ ¬ ((4 : Int) < (tblRGB.ncols : Int)) :=
  ⟨rfl, by decide⟩

/-- C3 counterexample: with resampling requested, asking for y column 8
of a four-column table fails with a raw `IndexError` raised inside
`resample_column`, not with the `ColumnRangeError` message — the range
check runs only after the table is built. -/
theorem c3_resample_raw_index_error :
    Licaplot.TableFromFile.build_tables akimaZero tffResampleBad = .error .indexError
    ∧ PyErr.indexError ≠ PyErr.valueError "Y column number (8) should be 1 <= Y <= (4)" :=
  ⟨rfl, by decide⟩

/-- C10: the `elements` property read returns the accumulated parts and
resets the accumulator, so a second read yields the empty list; after a
full Director run the builder is left with an empty accumulator. -/
theorem c10_elements_read_is_destructive :
    (∀ es : List Elem,
      (elements_read es).1 = es ∧ (elements_read (elements_read es).2).1 = [])
    ∧ (Licatools.Director.build_elements stcBuilderRGB Licatools.STCState.init).map
        (fun r => (elements_read r.2.elements).1) = .ok [] := by
  exact ⟨fun es => ⟨rfl, rfl⟩, by decide⟩

end LicaSpec
namespace LicaSpec

/-- C1: for the multi-table/multi-column builder, a supplied legend list
of length exactly `ncol` is replicated identically across all `ntab`
table-groups; one of length exactly `ntab * ncol` is chunked without
replication into `ntab` groups of `ncol`, in table-major order; any other
length makes the builder fail with the two-alternative cardinality
message before any grouping is produced. -/
theorem c1_single_tables_columns_legends
    (ntab ncol trimLen : Nat) (hnt : 1 ≤ ntab) (hnc : 1 ≤ ncol)
    (tables : List PTable) (ycols : List Int) (ls : List String) :
    (ls.length = ncol →
      Licatools.SingleTablesColumnsBuilder.build_legends_grp ntab ncol trimLen
          tables ycols (some ls)
        = .ok (List.replicate ntab (ls.map some)))
    ∧ (ls.length = ntab * ncol →
      Licatools.SingleTablesColumnsBuilder.build_legends_grp ntab ncol trimLen
          tables ycols (some ls)
        = .ok ((List.range ntab).map
            (fun i => ((ls.map some).drop (i * ncol)).take ncol)))
    ∧ (ls.length ≠ ncol → ls.length ≠ ntab * ncol →
      Licatools.SingleTablesColumnsBuilder.build_legends_grp ntab ncol trimLen
          tables ycols (some ls)
        = .error (.valueError
            (Licatools.legends2AltMsg ls.length (ncol * ntab) ncol))) := by
  refine ⟨?_, ?_, ?_⟩
  · intro h
    have hchk : Licatools.SingleTablesColumnsBuilder.check_legends ntab ncol (some ls)
        = .ok () := by
      simp [Licatools.SingleTablesColumnsBuilder.check_legends, h]
    simp only [Licatools.SingleTablesColumnsBuilder.build_legends_grp, hchk]
    rw [if_pos h, pyMul_map,
      batched_pyMul ncol hnc (ls.map some) (by simp [h])]
  · intro h2
    have hchk : Licatools.SingleTablesColumnsBuilder.check_legends ntab ncol (some ls)
        = .ok () := by
      simp [Licatools.SingleTablesColumnsBuilder.check_legends, h2]
    simp only [Licatools.SingleTablesColumnsBuilder.build_legends_grp, hchk]
    by_cases hc : ls.length = ncol
    · have hnt1 : ntab = 1 :=
        Nat.eq_of_mul_eq_mul_right hnc (by rw [one_mul, ← h2, hc])
      subst hnt1
      rw [if_pos hc, pyMul_map,
        batched_pyMul ncol hnc (ls.map some) (by simp [hc])]
      have hr1 : List.range 1 = [0] := rfl
      simp [hr1, List.take_of_length_le, hc]
    · rw [if_neg hc,
        batched_chunks ncol hnc ntab (ls.map some) (by simp [h2])]
  · intro h1 h2
    have hchk : Licatools.SingleTablesColumnsBuilder.check_legends ntab ncol (some ls)
        = .error (.valueError (Licatools.legends2AltMsg ls.length (ncol * ntab) ncol)) := by
      simp [Licatools.SingleTablesColumnsBuilder.check_legends, h1, h2]
    simp [Licatools.SingleTablesColumnsBuilder.build_legends_grp, hchk]

/-- C1 witness: with two tables and two Y columns, the three cases at
concrete inputs: `["a", "b"]` is replicated, `["a", "b", "c", "d"]` is
chunked table-major, and a three-element list yields the two-alternative
error message. -/
theorem c1_single_tables_columns_legends_witness :
    Licatools.SingleTablesColumnsBuilder.build_legends_grp 2 2 6 [] [] (some ["a", "b"])
      = .ok [[some "a", some "b"], [some "a", some "b"]]
    ∧ Licatools.SingleTablesColumnsBuilder.build_legends_grp 2 2 6 [] []
        (some ["a", "b", "c", "d"])
      = .ok [[some "a", some "b"], [some "c", some "d"]]
    ∧ Licatools.SingleTablesColumnsBuilder.build_legends_grp 2 2 6 [] []
        (some ["a", "b", "c"])
      = .error (.valueError
          "number of legends (3) should match number of tables x Y-columns (4) or the number of Y-columns (2)") := by
  refine ⟨?_, ?_, ?_⟩
  · have h := (c1_single_tables_columns_legends 2 2 6 (by decide) (by decide)
      [] [] ["a", "b"]).1 (by decide)
    simpa using h
  · have h := (c1_single_tables_columns_legends 2 2 6 (by decide) (by decide)
      [] [] ["a", "b", "c", "d"]).2.1 (by decide)
    simpa using h
  · have h := (c1_single_tables_columns_legends 2 2 6 (by decide) (by decide)
      [] [] ["a", "b", "c"]).2.2 (by decide) (by decide)
    simpa using h

end LicaSpec
namespace LicaSpec

theorem except_ok_bind (a : α) (f : α → Except ε β) :
    (Except.ok a >>= f) = f a := rfl

theorem except_error_bind (e : ε) (f : α → Except ε β) :
    ((Except.error e : Except ε α) >>= f) = .error e := rfl

/-- C7: requesting resampling together with a list of Y columns makes
`build_tables` fail before any table is returned: the multi-path source
trips its `assert isinstance(self._yc, int)` on the first path, and the
single-path source fails inside `resample_column` when the list is used
as a column key. -/
theorem c7_resampling_with_y_list_fails
    (akima : List ℚ → List ℚ → ℚ → ℚ)
    (bm : Licaplot.TablesFromFiles) (r : Nat) (ys : List Int)
    (h1 : bm.resolution = some r) (h2 : bm.ycol = .many ys) (h3 : bm.tables ≠ [])
    (bs : Licaplot.TableFromFile) (r2 : Nat) (ys2 : List Int)
    (h4 : bs.resolution = some r2) (h5 : bs.ycol = .many ys2) :
    Licaplot.TablesFromFiles.build_tables akima bm
      = .error (.assertionError "Y Column only")
    ∧ isErr (Licaplot.TableFromFile.build_tables akima bs) = true := by
  constructor
  · obtain ⟨t0, ts, hbm⟩ : ∃ t0 ts, bm.tables = t0 :: ts := by
      cases hbm : bm.tables with
      | nil => exact absurd hbm h3
      | cons t0 ts => exact ⟨t0, ts, rfl⟩
    have hyc : bm.yc = .many (ys.map (fun y => y - 1)) := by
      simp [Licaplot.TablesFromFiles.yc, h2, YSel.sub1]
    simp [Licaplot.TablesFromFiles.build_tables, hbm, h1, hyc,
      List.mapM.loop, except_error_bind, Except.map]
  · have hyc : bs.yc = .many (ys2.map (fun y => y - 1)) := by
      simp [Licaplot.TableFromFile.yc, h5, YSel.sub1]
    simp only [Licaplot.TableFromFile.build_tables, h4]
    simp only [Licaplot.build_one_resampled_table, Licaplot.resample_column, hyc]
    cases hx : bs.table.colAt bs.xc with
    | error e => simp [hx, except_error_bind, isErr]
    | ok c => simp [hx, except_ok_bind, except_error_bind, PTable.colSel, isErr]

/-- C7 witness: concrete multi-path and single-path sources asking for
resampling over Y columns 1 and 2 both fail. -/
theorem c7_resampling_with_y_list_fails_witness :
    Licaplot.TablesFromFiles.build_tables akimaZero tfsMultiY
      = .error (.assertionError "Y Column only")
    ∧ isErr (Licaplot.TableFromFile.build_tables akimaZero tffMultiY) = true :=
  c7_resampling_with_y_list_fails akimaZero tfsMultiY 5 [1, 2] rfl rfl
    (by decide) tffMultiY 5 [1, 2] rfl rfl

end LicaSpec
namespace LicaSpec

/-- C3 (amended): when no resampling is requested, the X index is valid
and the trim step succeeds, an out-of-range resolved Y index makes
`TableFromFile.build_tables` fail with the column-range `ValueError`
naming the 1-based offending index and the valid 1-based range.  (With
resampling requested, a raw `IndexError` from `resample_column` occurs
first instead.) -/
theorem c3_column_range_error_without_resampling
    (akima : List ℚ → List ℚ → ℚ → ℚ)
    (b : Licaplot.TableFromFile) (y : Int) (nc : Nat) (t2 : PTable)
    (hres : b.resolution = none) (hy : b.ycol = .one y)
    (htrim : Licaplot.trim_table b.table b.xc b.xlow b.xhigh b.lica_trim = .ok t2)
    (hncs : nc = t2.ncols)
    (hx0 : 0 ≤ b.xc) (hxlt : b.xc < (t2.ncols : Int))
    (hybad : ¬ (0 ≤ y - 1 ∧ y - 1 < (t2.ncols : Int))) :
    Licaplot.TableFromFile.build_tables akima b
      = .error (.valueError s!"Y column number ({y}) should be 1 <= Y <= ({nc})") := by
  subst hncs
  have hyc : b.yc = .one (y - 1) := by
    simp [Licaplot.TableFromFile.yc, hy, YSel.sub1]
  have hxok : Licaplot.checkOne t2.ncols "X" b.xc = .ok () := by
    simp [Licaplot.checkOne, hx0, hxlt]
  have hyerr : Licaplot.checkOne t2.ncols "Y" (y - 1)
      = .error (.valueError
          s!"Y column number ({y}) should be 1 <= Y <= ({t2.ncols})") := by
    rw [Licaplot.checkOne, if_neg hybad]
    have hy1 : y - 1 + 1 = y := by omega
    rw [hy1]
    rfl
  simp [Licaplot.TableFromFile.build_tables, hres, Licaplot.build_one_table,
    htrim, except_ok_bind, Licaplot.check_col_range, hyc,
    List.forM_cons, List.forM_nil, hxok, hyerr, except_error_bind]

/-- C3 witness: the spec scenario — requesting y column 8 of a
four-column table, without resampling, yields exactly
"Y column number (8) should be 1 <= Y <= (4)". -/
theorem c3_column_range_error_without_resampling_witness :
    Licaplot.TableFromFile.build_tables akimaZero tffRangeBad
      = .error (.valueError "Y column number (8) should be 1 <= Y <= (4)") := by
  have h := c3_column_range_error_without_resampling akimaZero tffRangeBad 8 4 tbl4
    rfl rfl (by decide) (by decide) (by decide) (by decide) (by decide)
  simpa using h

end LicaSpec
namespace LicaSpec

theorem colAt_of_get? (t : PTable) (j : Nat) (c : String × List ℚ)
    (h : t.cols.get? j = some c) : t.colAt (j : Int) = .ok c := by
  have hlt : j < t.cols.length := by
    by_contra hc
    push_neg at hc
    rw [List.get?_eq_none.mpr hc] at h
    exact Option.noConfusion h
  unfold PTable.colAt pyIndex PTable.ncols
  rw [if_pos (Int.natCast_nonneg j), if_pos (by exact_mod_cast hlt)]
  simp only [Int.toNat_natCast, h]

theorem rowSel_twice (t : PTable) (xs : List ℚ) (p1 p2 : ℚ → Bool) :
    (t.rowSel xs p1).rowSel (selectBy p1 xs xs) p2
      = { t with cols := t.cols.map (fun c =>
          (c.1, selectBy (fun v => p1 v && p2 v) xs c.2)) } := by
  simp only [PTable.rowSel, List.map_map]
  congr 1
  refine List.map_congr_left (fun c _ => ?_)
  simp [Function.comp, selectBy_selectBy]

theorem trim_core (t : PTable) (xcol : Nat) (cx : String × List ℚ)
    (hget : t.cols.get? xcol = some cx) (hi lo : ℚ) :
    ((t.rowSel cx.2 (fun v => decide (v ≤ hi))).colAt (xcol : Int) >>= fun x1 =>
      pure ((t.rowSel cx.2 (fun v => decide (v ≤ hi))).rowSel x1.2
        (fun v => decide (lo ≤ v))))
    = Except.ok ({ t with cols := t.cols.map (fun c =>
        (c.1, selectBy (withinBounds lo hi) cx.2 c.2)) } : PTable) := by
  have hcol1 : (t.rowSel cx.2 (fun v => decide (v ≤ hi))).colAt (xcol : Int)
      = .ok (cx.1, selectBy (fun v => decide (v ≤ hi)) cx.2 cx.2) := by
    refine colAt_of_get? _ xcol _ ?_
    simp only [PTable.rowSel, List.get?_map, hget]
    rfl
  rw [hcol1, except_ok_bind, rowSel_twice]
  have hfun : (fun v => decide (v ≤ hi) && decide (lo ≤ v)) = withinBounds lo hi :=
    funext (fun v => Bool.and_comm _ _)
  rw [hfun]
  rfl

/-- C6: trimming returns a new table that keeps, in every column, exactly
the entries whose x value lies within the effective bounds, both
endpoints inclusive; an unset bound defaults to the observed min/max of
the x column, and `lica` intersects the requested interval with the
fixed bench interval (never widening it).  The input table is read only
(`trim_table` is a pure function of it). -/
theorem c6_trim_keeps_rows_within_bounds
    (t : PTable) (xcol : Nat) (cx : String × List ℚ)
    (hget : t.cols.get? xcol = some cx)
    (xlow xhigh : Option ℚ) (lica : Bool)
    (hh : xhigh ≠ none ∨ cx.2 ≠ []) (hl : xlow ≠ none ∨ cx.2 ≠ []) :
    Licaplot.trim_table t (xcol : Int) xlow xhigh lica
      = .ok { t with cols := t.cols.map (fun c => (c.1,
          selectBy (withinBounds
            (clampedLow (requestedLow cx.2 xlow) lica)
            (clampedHigh (requestedHigh cx.2 xhigh) lica)) cx.2 c.2)) } := by
  have hcolAt : t.colAt (xcol : Int) = .ok cx := colAt_of_get? t xcol cx hget
  cases xhigh with
  | some hv =>
    cases xlow with
    | some lv =>
      simp only [Licaplot.trim_table, hcolAt, except_ok_bind]
      rw [trim_core t xcol cx hget]
      simp [requestedHigh, requestedLow, clampedHigh, clampedLow]
    | none =>
      obtain ⟨m, hm⟩ : ∃ m, cx.2.min? = some m := by
        rcases hl with h | h
        · exact absurd rfl h
        · cases hmm : cx.2.min? with
          | some m => exact ⟨m, rfl⟩
          | none => exact absurd (List.min?_eq_none_iff.mp hmm) h
      simp only [Licaplot.trim_table, hcolAt, except_ok_bind, hm]
      rw [trim_core t xcol cx hget]
      simp [requestedHigh, requestedLow, clampedHigh, clampedLow, hm]
  | none =>
    obtain ⟨mh, hmh⟩ : ∃ m, cx.2.max? = some m := by
      rcases hh with h | h
      · exact absurd rfl h
      · cases hmm : cx.2.max? with
        | some m => exact ⟨m, rfl⟩
        | none => exact absurd (List.max?_eq_none_iff.mp hmm) h
    cases xlow with
    | some lv =>
      simp only [Licaplot.trim_table, hcolAt, except_ok_bind, hmh]
      rw [trim_core t xcol cx hget]
      simp [requestedHigh, requestedLow, clampedHigh, clampedLow, hmh]
    | none =>
      obtain ⟨m, hm⟩ : ∃ m, cx.2.min? = some m := by
        rcases hl with h | h
        · exact absurd rfl h
        · cases hmm : cx.2.min? with
          | some m => exact ⟨m, rfl⟩
          | none => exact absurd (List.min?_eq_none_iff.mp hmm) h
      simp only [Licaplot.trim_table, hcolAt, except_ok_bind, hmh, hm]
      rw [trim_core t xcol cx hget]
      simp [requestedHigh, requestedLow, clampedHigh, clampedLow, hmh, hm]

/-- C6 witness: trimming the three-row table to `xhigh = 4` with an unset
lower bound keeps exactly the rows with x in `[1, 4]`. -/
theorem c6_trim_keeps_rows_within_bounds_witness :
    Licaplot.trim_table tblTrim3 0 none (some 4) false
      = .ok { cols := [("W", [1, 3]), ("C", [10, 30])], title := "t", label := "l" } := by
  have h := c6_trim_keeps_rows_within_bounds tblTrim3 0 ("W", [1, 3, 5]) rfl
    none (some 4) false (Or.inl (by decide)) (Or.inr (by decide))
  exact h.trans (by decide)

end LicaSpec
namespace LicaSpec

/-- C5 counterexample: for x samples {0, 5} and step 3 the grid is
`np.arange(0, 5 + 3, 3) = [0, 3, 6]`, whose last point 6 exceeds
`floor(max X) = 5`. -/
theorem c5_grid_overshoots_floor_max :
    Licaplot.resample_column akimaZero tblSpan5 3 0 (.one 1) false
      = .ok ([0, 3, 6], [0, 0, 0])
    ∧ ¬ ((6 : ℚ) ≤ 5) :=
  ⟨by decide, by decide⟩

/-- C5 (amended): resampling produces the uniform grid
`arange(ceil(min X), floor(max X) + step, step)` and evaluates the
(opaque, external) Akima interpolant at exactly those grid points: the
first point is `ceil(min X)`, consecutive points differ by exactly the
step, and the last point lies in `[floor(max X), floor(max X) + step)` —
it always reaches `floor(max X)` but may exceed it by up to `step - 1`
when the step does not divide the span. -/
theorem c5_resample_uniform_grid
    (akima : List ℚ → List ℚ → ℚ → ℚ) (t : PTable) (xcol ycolZ : Nat)
    (cx cy : String × List ℚ)
    (hx : t.cols.get? xcol = some cx) (hy : t.cols.get? ycolZ = some cy)
    (r : Nat) (hr : 1 ≤ r)
    (qmin qmax : ℚ) (hmin : cx.2.min? = some qmin) (hmax : cx.2.max? = some qmax)
    (hord : ⌈qmin⌉ ≤ ⌊qmax⌋) :
    Licaplot.resample_column akima t r (xcol : Int) (.one (ycolZ : Int)) false
      = .ok ((Licaplot.arangeInt ⌈qmin⌉ (⌊qmax⌋ + r) r).map (fun (z : Int) => (z : ℚ)),
             ((Licaplot.arangeInt ⌈qmin⌉ (⌊qmax⌋ + r) r).map (fun (z : Int) => (z : ℚ))).map
               (akima cx.2 cy.2))
    ∧ ((Licaplot.arangeInt ⌈qmin⌉ (⌊qmax⌋ + r) r).map (fun (z : Int) => (z : ℚ)))[0]?
        = some ((⌈qmin⌉ : Int) : ℚ)
    ∧ (∀ i : Nat, i + 1 < (Licaplot.arangeInt ⌈qmin⌉ (⌊qmax⌋ + r) r).length →
        ((Licaplot.arangeInt ⌈qmin⌉ (⌊qmax⌋ + r) r).map (fun (z : Int) => (z : ℚ)))[i + 1]?
          = (((Licaplot.arangeInt ⌈qmin⌉ (⌊qmax⌋ + r) r).map
              (fun (z : Int) => (z : ℚ)))[i]?).map (fun v => v + (r : ℚ)))
    ∧ (∃ L : Int, (Licaplot.arangeInt ⌈qmin⌉ (⌊qmax⌋ + r) r).getLast? = some L
        ∧ ⌊qmax⌋ ≤ L ∧ L < ⌊qmax⌋ + r) := by
  have hcx : t.colAt (xcol : Int) = .ok cx := colAt_of_get? t xcol cx hx
  have hcy : t.colSel (.one (ycolZ : Int)) = .ok cy := colAt_of_get? t ycolZ cy hy
  obtain ⟨a, haInt⟩ : ∃ a : Nat, (a : Int) = ⌊qmax⌋ + (r : Int) - ⌈qmin⌉ :=
    ⟨((⌊qmax⌋ + (r : Int)) - ⌈qmin⌉).toNat, Int.toNat_of_nonneg (by omega)⟩
  have haNat : ((⌊qmax⌋ + (r : Int)) - ⌈qmin⌉).toNat = a := by
    rw [← haInt, Int.toNat_natCast]
  have har : r ≤ a := by omega
  obtain ⟨q, hq⟩ : ∃ q, (a + r - 1) / r = q := ⟨_, rfl⟩
  have hlen : (Licaplot.arangeInt ⌈qmin⌉ (⌊qmax⌋ + r) r).length = q := by
    rw [arangeInt_length, haNat, hq]
  have hq1 : 1 ≤ q := by
    rw [← hq, Nat.le_div_iff_mul_le (show 0 < r by omega), one_mul]; omega
  have hdm := Nat.div_add_mod (a + r - 1) r
  rw [hq] at hdm
  have hmlt := Nat.mod_lt (a + r - 1) (show 0 < r by omega)
  have hbounds : a ≤ r * q ∧ r * q ≤ a + r - 1 := by omega
  refine ⟨?_, ?_, ?_, ?_⟩
  · simp only [Licaplot.resample_column, hcx, hcy, except_ok_bind, hmax, hmin,
      Bool.false_eq_true, if_neg]
    rfl
  · rw [List.getElem?_map, arangeInt_getElem? _ _ _ 0 (by rw [haNat, hq]; omega)]
    simp
  · intro i hi
    rw [hlen] at hi
    rw [List.getElem?_map, List.getElem?_map,
      arangeInt_getElem? _ _ _ (i + 1) (by rw [haNat, hq]; omega),
      arangeInt_getElem? _ _ _ i (by rw [haNat, hq]; omega)]
    simp only [Option.map]
    congr 1
    push_cast
    ring
  · obtain ⟨k, rfl⟩ : ∃ k, q = k + 1 := ⟨q - 1, by omega⟩
    refine ⟨⌈qmin⌉ + (k : Int) * r, ?_, ?_⟩
    · rw [List.getLast?_eq_getElem? _, hlen,
        arangeInt_getElem? _ _ _ ((k + 1) - 1) (by rw [haNat, hq]; omega)]
      simp
    · have hb1 : (a : Int) ≤ (r : Int) * ((k : Int) + 1) := by exact_mod_cast hbounds.1
      have hb2 : (r : Int) * ((k : Int) + 1) ≤ (a : Int) + (r : Int) - 1 := by
        have h := hbounds.2
        zify [show 1 ≤ a + r by omega] at h
        exact_mod_cast h
      have hexp : (r : Int) * ((k : Int) + 1) = (k : Int) * (r : Int) + (r : Int) := by
        ring
      rw [hexp] at hb1 hb2
      constructor <;> omega

end LicaSpec

namespace LicaSpec

/-- C5 witness: for x samples {1, 4} and step 2 the resampler returns the
grid [1, 3, 5] with the stub interpolant evaluated at those points. -/
theorem c5_resample_uniform_grid_witness :
    Licaplot.resample_column akimaZero tblSpan3 2 0 (.one 1) false
      = .ok ([1, 3, 5], [0, 0, 0]) := by
  have h := c5_resample_uniform_grid akimaZero tblSpan3 0 1 ("W", [1, 4])
    ("Y", [2, 3]) rfl rfl 2 (by decide) 1 4 (by decide) (by decide) (by decide)
  exact h.1.trans (by decide)

end LicaSpec
